import Mathlib

/-!
Verification of the Game of Life core of this repository (src/hdgol.py).

The Python program stores the grid as a dict with `(row, col)` tuple keys and
cell dicts `{"checked": bool}` as values; here the dict is embedded as an
association list in insertion order, and a raised `KeyError` is embedded as
`Option.none`.
-/

namespace HDGOL

/-- `ROWS = 20` in src/hdgol.py. -/
def ROWS : Nat := 20

/-- `COLS = 30` in src/hdgol.py. -/
def COLS : Nat := 30

/-- `NEIGHBOR_OFFSETS` from src/hdgol.py. -/
def NEIGHBOR_OFFSETS : List (Int × Int) :=
  [(-1, -1), (-1, 0), (-1, 1), (0, -1), (0, 1), (1, -1), (1, 0), (1, 1)]

/-- A cell dict `{"checked": bool}` of src/hdgol.py. -/
structure Cell where
  checked : Bool
deriving DecidableEq

/-- A `(row, col)` tuple key. -/
abbrev Key := Nat × Nat

/-- The `state.checkboxes` dict: association list in insertion order. -/
abbrev Checkboxes := List (Key × Cell)

/-- Python dict lookup `d[k]` / `d.get(k)`, as first matching entry. -/
def alGet {α : Type} (d : List (Key × α)) (k : Key) : Option α :=
  (d.find? (fun p => decide (p.1 = k))).map (fun p => p.2)

/-- `current_state.get((nr, nc), 0)` of src/hdgol.py line 102: a live cell
counts 1, a dead or missing cell counts 0. -/
def dictGetD0 (d : List (Key × Bool)) (k : Key) : Nat :=
  match alGet d k with
  | some b => if b then 1 else 0
  | none => 0

/-- Row-major table of values for keys `[0,n) × [0,m)`, the shape every
`for row in range(n): for col in range(m)` loop of src/hdgol.py produces. -/
def tabulate {α : Type} (n m : Nat) (g : Nat → Nat → α) : List (Key × α) :=
  (List.range n).flatMap (fun r => (List.range m).map (fun c => ((r, c), g r c)))

/-- A fully populated checkbox grid holding `f r c` at key `(r, c)`. -/
def rowMajor (f : Nat → Nat → Bool) : Checkboxes :=
  tabulate ROWS COLS (fun r c => ⟨f r c⟩)

/-- The row-major list of all in-range keys. -/
def allKeysList : List Key :=
  (List.range ROWS).flatMap (fun r => (List.range COLS).map (fun c => (r, c)))

/-- Sequence a list of options: `none` as soon as one element is `none`.
Embeds a Python loop whose body may raise `KeyError`. -/
def optSeq {α : Type} : List (Option α) → Option (List α)
  | [] => some []
  | none :: _ => none
  | some a :: rest => (optSeq rest).map (fun l => a :: l)

/-- The rebuild loop of `next_generation` (src/hdgol.py lines 107-113):
`cell = state.checkboxes[key]` (a `KeyError` is `none`), then
`new_cell = {**cell, "checked": alive}`. -/
def buildNew (checkboxes : Checkboxes) : List (Key × Bool) → Option Checkboxes
  | [] => some []
  | kb :: rest =>
    match alGet checkboxes kb.1 with
    | none => none
    | some cell =>
      (buildNew checkboxes rest).map (fun tl => (kb.1, { cell with checked := kb.2 }) :: tl)

/-- The snapshot loop of `next_generation` (src/hdgol.py lines 89-92):
`current_state[key] = cell["checked"]` over the dict items in order. -/
def snapshot (checkboxes : Checkboxes) : List (Key × Bool) :=
  checkboxes.map (fun kc => (kc.1, kc.2.checked))

/-- The neighbor count of `next_generation` (src/hdgol.py lines 97-102): sum
over `NEIGHBOR_OFFSETS`, with the bounds check
`0 <= nr < ROWS and 0 <= nc < COLS` and `current_state.get((nr, nc), 0)`. -/
def live_neighbors (current_state : List (Key × Bool)) (row col : Nat) : Nat :=
  (NEIGHBOR_OFFSETS.map (fun d =>
    let nr : Int := (row : Int) + d.1
    let nc : Int := (col : Int) + d.2
    if 0 ≤ nr ∧ nr < (ROWS : Int) ∧ 0 ≤ nc ∧ nc < (COLS : Int) then
      dictGetD0 current_state (nr.toNat, nc.toNat)
    else 0)).sum

/-- The rule of `next_generation` (src/hdgol.py lines 103-105):
`(alive and live_neighbors in [2, 3]) or (not alive and live_neighbors == 3)`. -/
def new_alive (current_state : List (Key × Bool)) (kb : Key × Bool) : Bool :=
  let n := live_neighbors current_state kb.1.1 kb.1.2
  (kb.2 && (n == 2 || n == 3)) || (!kb.2 && n == 3)

/-- `next_generation` of src/hdgol.py (lines 78-116): snapshot the `checked`
values, compute the new state per cell, then rebuild the checkbox dict. -/
def next_generation (checkboxes : Checkboxes) : Option Checkboxes :=
  let current_state := snapshot checkboxes
  buildNew checkboxes
    (current_state.map (fun kb => (kb.1, new_alive current_state kb)))

/-- The convolution kernel of src/hdgol.py line 134. -/
def golKernel : List (List Nat) := [[1, 1, 1], [1, 0, 1], [1, 1, 1]]

/-- Indexing into the zero-padded grid array: entry `(i, j)` when in range,
`0` otherwise (models `boundary="fill", fillvalue=0`). -/
def gridAt (grid : List (List Nat)) (i j : Int) : Nat :=
  if 0 ≤ i ∧ 0 ≤ j then (grid.getD i.toNat []).getD j.toNat 0 else 0

/-- Kernel entry `golKernel[i][j]`. -/
def kernelAt (i j : Nat) : Nat := (golKernel.getD i []).getD j 0

/-- `convolve2d(grid, kernel, mode="same", boundary="fill", fillvalue=0)` at
position `(r, c)`: the 2-D convolution sum over the 3×3 kernel. -/
def convAt (grid : List (List Nat)) (r c : Nat) : Nat :=
  ((List.range 3).map (fun i =>
    ((List.range 3).map (fun j =>
      kernelAt i j * gridAt grid ((r : Int) + 1 - i) ((c : Int) + 1 - j))).sum)).sum

/-- The grid-building loop of `next_generation_numpy` (src/hdgol.py lines
125-130): `grid[row, col] = 1 if state.checkboxes[key]["checked"] else 0`,
where a missing key raises `KeyError`. -/
def buildGrid (checkboxes : Checkboxes) : Option (List (List Nat)) :=
  optSeq ((List.range ROWS).map (fun row =>
    optSeq ((List.range COLS).map (fun col =>
      (alGet checkboxes (row, col)).map (fun cell => if cell.checked then 1 else 0)))))

/-- The `np.where` rule of src/hdgol.py lines 141-146: `1` where a live cell
has 2 or 3 neighbors or a dead cell has exactly 3, else `0`. -/
def new_grid_val (grid : List (List Nat)) (r c : Nat) : Nat :=
  if (gridAt grid r c = 1 ∧ (convAt grid r c = 2 ∨ convAt grid r c = 3))
      ∨ (gridAt grid r c = 0 ∧ convAt grid r c = 3) then 1 else 0

/-- The conversion loop of src/hdgol.py lines 149-156: for every `(row, col)`
in range, `new_cell = {**state.checkboxes[key], "checked":
bool(new_grid[row, col])}` (a missing key raises `KeyError`). -/
def rebuildNumpy (checkboxes : Checkboxes) (grid : List (List Nat)) : Option Checkboxes :=
  optSeq (allKeysList.map (fun k =>
    (alGet checkboxes k).map (fun cell =>
      (k, { cell with checked := decide (new_grid_val grid k.1 k.2 ≠ 0) }))))

/-- `next_generation_numpy` of src/hdgol.py (lines 119-159): build the int
grid, convolve with the 8-neighbor kernel, apply the `np.where` rule, and
rebuild the checkbox dict over all `(row, col)` in range. -/
def next_generation_numpy (checkboxes : Checkboxes) : Option Checkboxes :=
  (buildGrid checkboxes).bind (rebuildNumpy checkboxes)

/-- The 8 Moore-neighborhood offsets, following the spec's words: the set
difference of the 3×3 box of offsets and the zero offset. -/
def mooreOffsets : List (Int × Int) :=
  ((([-1, 0, 1] : List Int).flatMap (fun a =>
    ([-1, 0, 1] : List Int).map (fun b => (a, b)))).filter
      (fun p => decide (¬ (p.1 = 0 ∧ p.2 = 0))))

/-- Spec: the contribution of one neighbor position, clipped at the grid
boundaries: `1` when the position is on the grid and live, `0` when it is
dead or off-grid (off-grid neighbors count as dead, no wraparound). -/
def neighTerm (f : Nat → Nat → Bool) (a b : Int) : Nat :=
  if 0 ≤ a ∧ a < (ROWS : Int) ∧ 0 ≤ b ∧ b < (COLS : Int) then
    (if f a.toNat b.toNat then 1 else 0)
  else 0

/-- Spec: live-neighbor count among the 8 Moore offsets, clipped at the grid
boundaries; off-grid neighbors count as dead. -/
def liveNeighborsSpec (f : Nat → Nat → Bool) (r c : Nat) : Nat :=
  (mooreOffsets.map (fun d => neighTerm f ((r : Int) + d.1) ((c : Int) + d.2))).sum

/-- The int array `grid` built from a fully populated grid (src/hdgol.py
lines 125-130): `1` for a checked cell, `0` otherwise. -/
def gridOf (f : Nat → Nat → Bool) : List (List Nat) :=
  (List.range ROWS).map (fun r => (List.range COLS).map (fun c => if f r c then 1 else 0))

/-- Spec: the standard rule. A live cell survives iff its count is 2 or 3; a
dead cell becomes live iff its count is exactly 3; every other cell is dead. -/
def specRule (alive : Bool) (n : Nat) : Bool :=
  if alive then decide (n = 2 ∨ n = 3) else decide (n = 3)

/-- Spec: the whole-grid transition on a fully populated grid. -/
def gridStep (f : Nat → Nat → Bool) : Nat → Nat → Bool :=
  fun r c => specRule (f r c) (liveNeighborsSpec f r c)


/-- The global session state `MyState` of src/hdgol.py (lines 23-28); the
`random.random() < 0.5` draws are modelled by a boolean stream `rng`, the
`i`-th call yielding `rng i`. -/
structure MyState where
  did_setup : Bool
  stopped : Bool
  generation : Int
  checkboxes : Checkboxes
deriving DecidableEq

/-- `initialize_grid_data` of src/hdgol.py (lines 31-45): early return when
`state.did_setup`; otherwise fill the dict in row-major order, cell `(row,
col)` consuming the `(row * cols + col)`-th RNG draw, then set the flag. -/
def initialize_grid_data (rows cols : Nat) (rng : Nat → Bool) (s : MyState) : MyState :=
  if s.did_setup then s
  else
    { s with
      checkboxes := tabulate rows cols (fun row col => ⟨rng (row * cols + col)⟩),
      did_setup := true }

/-- Python dict merge `{**d, k: v}` for a key already present: the entry is
replaced in place. -/
def alSet {α : Type} (d : List (Key × α)) (k : Key) (v : α) : List (Key × α) :=
  d.map (fun p => if p.1 = k then (k, v) else p)

/-- The `checkbox.changed` handler of `render_grid` (src/hdgol.py lines
63-74): read the cell (`KeyError` is `none`), replace its `checked` value,
store the dict immutably, and do `state.generation += 1`. -/
def checkbox_changed (s : MyState) (key : Key) (newVal : Bool) : Option MyState :=
  (alGet s.checkboxes key).map (fun cell =>
    { s with
      checkboxes := alSet s.checkboxes key { cell with checked := newVal },
      generation := s.generation + 1 })

/-- The `next_button.clicked` handler of `main` (src/hdgol.py lines 197-198):
`task.rerun(next_generation_numpy)` runs one numpy transition; nothing else
in the session state is touched. -/
def next_button_clicked (s : MyState) : Option MyState :=
  (next_generation_numpy s.checkboxes).map (fun cbs => { s with checkboxes := cbs })

/-- The `reset_button.clicked` handler of `main` (src/hdgol.py lines
204-208). -/
def reset_button_clicked (s : MyState) : MyState :=
  { s with checkboxes := [], did_setup := false, stopped := true, generation := 0 }

/-- Outcome of one iteration of the `while True` loop of
`next_generation_loop` (src/hdgol.py lines 162-171). -/
inductive LoopStep where
  /-- `state.stopped` was true at the wake: `break`, no transition computed. -/
  | stopTick : LoopStep
  /-- A full tick ran: one numpy transition then `state.generation += 1`. -/
  | tick (s : MyState) : LoopStep
  /-- The transition raised (missing key). -/
  | err : LoopStep
deriving DecidableEq

/-- One iteration of `next_generation_loop` (src/hdgol.py lines 162-171):
check `state.stopped` first; only when it is false run
`next_generation_numpy()` and increment the generation. -/
def next_generation_loop_body (s : MyState) : LoopStep :=
  if s.stopped then .stopTick
  else
    match next_generation_numpy s.checkboxes with
    | some cbs => .tick { s with checkboxes := cbs, generation := s.generation + 1 }
    | none => .err

/-- Modelled from the spec: the cell record `{ alive, locked }` of the
lock-aware variant of this repository, which is not among the files under
src/ (src/hdgol.py cells have no locked flag). -/
structure LCell where
  alive : Bool
  locked : Bool
deriving DecidableEq

/-- Modelled from the spec: the lock-aware transition of the variant not
under src/. The computed rule state is discarded for a locked cell, whose
pre-transition alive value is kept; the locked flag is cleared regardless of
outcome. -/
def next_generation_locked (g : Nat → Nat → LCell) : Nat → Nat → LCell :=
  fun r c =>
    let computed := specRule (g r c).alive (liveNeighborsSpec (fun i j => (g i j).alive) r c)
    { alive := if (g r c).locked then (g r c).alive else computed, locked := false }

/-- A vertical blinker: exactly the middle column of the 3×3 region with
top-left corner `(r0, c0)` is alive. -/
def blinkerV (r0 c0 : Nat) : Nat → Nat → Bool :=
  fun r c => decide (c = c0 + 1 ∧ r0 ≤ r ∧ r ≤ r0 + 2)

/-- The horizontal middle row of the 3×3 region with top-left `(r0, c0)`. -/
def blinkerH (r0 c0 : Nat) : Nat → Nat → Bool :=
  fun r c => decide (r = r0 + 1 ∧ c0 ≤ c ∧ c ≤ c0 + 2)

/-- Lookup of key `k` in the result of a transition (`none` when the
transition raised). -/
def resGet (o : Option Checkboxes) (k : Key) : Option Cell :=
  o.bind (fun cbs => alGet cbs k)

-- ### Theorems ###

theorem alGet_nil {α : Type} (k : Key) : alGet ([] : List (Key × α)) k = none := rfl

theorem alGet_cons {α : Type} (p : Key × α) (d : List (Key × α)) (k : Key) :
    alGet (p :: d) k = if p.1 = k then some p.2 else alGet d k := by
  by_cases h : p.1 = k
  · simp [alGet, List.find?_cons, h]
  · simp [alGet, List.find?_cons, h]

theorem alGet_append {α : Type} (d₁ d₂ : List (Key × α)) (k : Key) :
    alGet (d₁ ++ d₂) k = (alGet d₁ k).or (alGet d₂ k) := by
  induction d₁ with
  | nil => simp [alGet_nil]
  | cons p d ih =>
    rw [List.cons_append, alGet_cons, alGet_cons]
    by_cases h : p.1 = k
    · simp [h]
    · simp [h, ih]

theorem alGet_row {α : Type} (i m : Nat) (h : Nat → α) (r c : Nat) :
    alGet ((List.range m).map (fun j => ((i, j), h j))) (r, c)
      = if i = r ∧ c < m then some (h c) else none := by
  induction m with
  | zero => simp [alGet_nil]
  | succ m ih =>
    rw [List.range_succ, List.map_append, alGet_append, ih]
    by_cases hir : i = r
    · by_cases hcm : c < m
      · simp [hir, hcm, Nat.lt_succ_of_lt hcm]
      · by_cases hce : c = m
        · subst hce
          simp [hir, hcm, alGet_cons, Nat.lt_succ_self]
        · have h2 : ¬ c < m + 1 := by omega
          have h3 : ¬ m = c := by omega
          simp [hir, hcm, h2, alGet_cons, alGet_nil, h3]
    · have h4 : ¬ ((i, m) : Key).1 = (r, c) := by
        simp [Prod.ext_iff]
        intro h5
        exact absurd h5 hir
      simp [hir, alGet_cons, alGet_nil, h4]

theorem alGet_tabulate {α : Type} (n m : Nat) (g : Nat → Nat → α) (r c : Nat) :
    alGet (tabulate n m g) (r, c) = if r < n ∧ c < m then some (g r c) else none := by
  induction n with
  | zero => simp [tabulate, alGet_nil]
  | succ n ih =>
    rw [tabulate, List.range_succ, List.flatMap_append, ← tabulate, alGet_append, ih]
    rw [List.flatMap_cons, List.flatMap_nil, List.append_nil, alGet_row]
    by_cases hr : r < n
    · have h6 : ¬ n = r := by omega
      simp [hr, Nat.lt_succ_of_lt hr, h6]
    · by_cases hre : r = n
      · subst hre
        simp [hr, Nat.lt_succ_self]
      · have h7 : ¬ r < n + 1 := by omega
        have h8 : ¬ n = r := by omega
        simp [hr, h7, h8]

theorem mooreOffsets_eq : mooreOffsets = NEIGHBOR_OFFSETS := by decide

theorem mem_tabulate {α : Type} (n m : Nat) (g : Nat → Nat → α) (kb : Key × α) :
    kb ∈ tabulate n m g ↔ ∃ r c, r < n ∧ c < m ∧ kb = ((r, c), g r c) := by
  simp only [tabulate, List.mem_flatMap, List.mem_map, List.mem_range]
  constructor
  · rintro ⟨r, hr, c, hc, rfl⟩
    exact ⟨r, c, hr, hc, rfl⟩
  · rintro ⟨r, c, hr, hc, rfl⟩
    exact ⟨r, hr, c, hc, rfl⟩

theorem tabulate_succ {α : Type} (n m : Nat) (g : Nat → Nat → α) :
    tabulate (n + 1) m g = tabulate n m g ++ (List.range m).map (fun c => ((n, c), g n c)) := by
  rw [tabulate, List.range_succ, List.flatMap_append, ← tabulate, List.flatMap_cons,
      List.flatMap_nil, List.append_nil]

theorem map_tabulate_of_eq {α β : Type} (n m : Nat) (g : Nat → Nat → α)
    (F : Key × α → Key × β) (G : Nat → Nat → β)
    (h : ∀ r c, F ((r, c), g r c) = ((r, c), G r c)) :
    (tabulate n m g).map F = tabulate n m G := by
  induction n with
  | zero => rfl
  | succ n ih =>
    rw [tabulate_succ, tabulate_succ, List.map_append, ih, List.map_map]
    congr 1
    apply List.map_congr_left
    intro c _
    exact h n c

theorem snapshot_rowMajor (f : Nat → Nat → Bool) :
    snapshot (rowMajor f) = tabulate ROWS COLS f := by
  rw [snapshot, rowMajor]
  exact map_tabulate_of_eq ROWS COLS _ _ f (fun r c => rfl)

theorem dictGetD0_tabulate (n m : Nat) (f : Nat → Nat → Bool) (a b : Nat) :
    dictGetD0 (tabulate n m f) (a, b)
      = if a < n ∧ b < m then (if f a b then 1 else 0) else 0 := by
  rw [dictGetD0, alGet_tabulate]
  by_cases h : a < n ∧ b < m
  · simp [h]
  · simp [h]

theorem live_neighbors_tabulate (f : Nat → Nat → Bool) (r c : Nat) :
    live_neighbors (tabulate ROWS COLS f) r c = liveNeighborsSpec f r c := by
  rw [live_neighbors, liveNeighborsSpec, mooreOffsets_eq]
  congr 1
  apply List.map_congr_left
  intro d _
  rw [neighTerm]
  by_cases h : 0 ≤ (r : Int) + d.1 ∧ (r : Int) + d.1 < (ROWS : Int)
      ∧ 0 ≤ (c : Int) + d.2 ∧ (c : Int) + d.2 < (COLS : Int)
  · rw [if_pos h, if_pos h, dictGetD0_tabulate]
    rw [if_pos (by constructor <;> omega)]
  · rw [if_neg h, if_neg h]

theorem new_alive_tabulate (f : Nat → Nat → Bool) (r c : Nat) :
    new_alive (tabulate ROWS COLS f) ((r, c), f r c) = gridStep f r c := by
  rw [new_alive, gridStep, specRule]
  simp only [live_neighbors_tabulate]
  cases hf : f r c
  · by_cases h3 : liveNeighborsSpec f r c = 3 <;> simp [h3]
  · by_cases h2 : liveNeighborsSpec f r c = 2 <;>
      by_cases h3 : liveNeighborsSpec f r c = 3 <;> simp [h2, h3]

theorem buildNew_of_get (cbs : Checkboxes) (G : Key → Cell) (l : List (Key × Bool))
    (h : ∀ kb ∈ l, alGet cbs kb.1 = some (G kb.1)) :
    buildNew cbs l = some (l.map (fun kb => (kb.1, { G kb.1 with checked := kb.2 }))) := by
  induction l with
  | nil => rfl
  | cons kb rest ih =>
    rw [buildNew, h kb (List.mem_cons_self kb rest),
        ih (fun x hx => h x (List.mem_cons_of_mem kb hx))]
    rfl

theorem alGet_rowMajor (f : Nat → Nat → Bool) (r c : Nat) :
    alGet (rowMajor f) (r, c) = if r < ROWS ∧ c < COLS then some ⟨f r c⟩ else none := by
  rw [rowMajor, alGet_tabulate]

theorem next_generation_rowMajor (f : Nat → Nat → Bool) :
    next_generation (rowMajor f) = some (rowMajor (gridStep f)) := by
  rw [next_generation, snapshot_rowMajor]
  have h1 : (tabulate ROWS COLS f).map
      (fun kb => (kb.1, new_alive (tabulate ROWS COLS f) kb))
      = tabulate ROWS COLS (gridStep f) :=
    map_tabulate_of_eq ROWS COLS f _ (gridStep f) (fun r c => by
      rw [new_alive_tabulate])
  rw [h1]
  have h2 : buildNew (rowMajor f) (tabulate ROWS COLS (gridStep f))
      = some ((tabulate ROWS COLS (gridStep f)).map
          (fun kb => (kb.1, { (⟨f kb.1.1 kb.1.2⟩ : Cell) with checked := kb.2 }))) :=
    buildNew_of_get (rowMajor f) (fun k => ⟨f k.1 k.2⟩) _ (fun kb hkb => by
      obtain ⟨r, c, hr, hc, rfl⟩ := (mem_tabulate ROWS COLS (gridStep f) kb).mp hkb
      rw [alGet_rowMajor, if_pos ⟨hr, hc⟩])
  rw [h2, rowMajor, map_tabulate_of_eq ROWS COLS (gridStep f) _
    (fun r c => (⟨gridStep f r c⟩ : Cell)) (fun r c => rfl)]

theorem optSeq_map_some {α β : Type} (l : List α) (h : α → Option β) (g : α → β)
    (hs : ∀ a ∈ l, h a = some (g a)) :
    optSeq (l.map h) = some (l.map g) := by
  induction l with
  | nil => rfl
  | cons a rest ih =>
    rw [List.map_cons, hs a (List.mem_cons_self a rest), optSeq,
        ih (fun x hx => hs x (List.mem_cons_of_mem a hx)), List.map_cons]
    rfl

theorem getD_range_map {α : Type} (g : Nat → α) (m k : Nat) (dflt : α) :
    ((List.range m).map g).getD k dflt = if k < m then g k else dflt := by
  by_cases h : k < m
  · simp [List.getD_eq_getElem?_getD, List.getElem?_map, List.getElem?_range, h]
  · rw [List.getD_eq_getElem?_getD, List.getElem?_map,
      List.getElem?_eq_none (by simpa using Nat.not_lt.mp h), if_neg h]
    rfl

theorem buildGrid_rowMajor (f : Nat → Nat → Bool) :
    buildGrid (rowMajor f) = some (gridOf f) := by
  rw [buildGrid, gridOf]
  apply optSeq_map_some
  intro row hrow
  rw [List.mem_range] at hrow
  apply optSeq_map_some
  intro col hcol
  rw [List.mem_range] at hcol
  rw [alGet_rowMajor, if_pos ⟨hrow, hcol⟩]
  rfl

theorem gridAt_gridOf (f : Nat → Nat → Bool) (i j : Int) :
    gridAt (gridOf f) i j = neighTerm f i j := by
  rw [gridAt, gridOf, neighTerm]
  by_cases hij : 0 ≤ i ∧ 0 ≤ j
  · rw [if_pos hij, getD_range_map]
    by_cases hi : i.toNat < ROWS
    · rw [if_pos hi, getD_range_map]
      by_cases hj : j.toNat < COLS
      · rw [if_pos hj, if_pos (show 0 ≤ i ∧ i < (ROWS : Int) ∧ 0 ≤ j ∧ j < (COLS : Int) by omega)]
      · rw [if_neg hj, if_neg (by omega)]
    · rw [if_neg hi, if_neg (by omega)]
      rfl
  · rw [if_neg hij, if_neg (by omega)]

theorem convAt_gridOf (f : Nat → Nat → Bool) (r c : Nat) :
    convAt (gridOf f) r c = liveNeighborsSpec f r c := by
  have k00 : kernelAt 0 0 = 1 := rfl
  have k01 : kernelAt 0 1 = 1 := rfl
  have k02 : kernelAt 0 2 = 1 := rfl
  have k10 : kernelAt 1 0 = 1 := rfl
  have k11 : kernelAt 1 1 = 0 := rfl
  have k12 : kernelAt 1 2 = 1 := rfl
  have k20 : kernelAt 2 0 = 1 := rfl
  have k21 : kernelAt 2 1 = 1 := rfl
  have k22 : kernelAt 2 2 = 1 := rfl
  rw [convAt, liveNeighborsSpec, mooreOffsets_eq, NEIGHBOR_OFFSETS]
  rw [show List.range 3 = [0, 1, 2] from rfl]
  simp only [List.map_cons, List.map_nil, List.sum_cons, List.sum_nil,
    k00, k01, k02, k10, k11, k12, k20, k21, k22, gridAt_gridOf, one_mul, zero_mul]
  push_cast
  ring_nf

theorem mem_allKeysList (k : Key) : k ∈ allKeysList ↔ k.1 < ROWS ∧ k.2 < COLS := by
  obtain ⟨r, c⟩ := k
  simp only [allKeysList, List.mem_flatMap, List.mem_map, List.mem_range]
  constructor
  · rintro ⟨a, ha, b, hb, h⟩
    obtain ⟨rfl, rfl⟩ := Prod.mk.injEq .. ▸ h
    exact ⟨ha, hb⟩
  · rintro ⟨hr, hc⟩
    exact ⟨r, hr, c, hc, rfl⟩

theorem map_allKeysList {α : Type} (g : Nat → Nat → α) :
    allKeysList.map (fun k => (k, g k.1 k.2)) = tabulate ROWS COLS g := by
  simp only [allKeysList, tabulate, List.map_flatMap, List.map_map]
  rfl

theorem new_grid_val_gridOf (f : Nat → Nat → Bool) (r c : Nat)
    (hr : r < ROWS) (hc : c < COLS) :
    decide (new_grid_val (gridOf f) r c ≠ 0) = gridStep f r c := by
  have hg : gridAt (gridOf f) r c = if f r c then 1 else 0 := by
    rw [gridAt_gridOf, neighTerm,
      if_pos (show (0 : Int) ≤ (r : Int) ∧ (r : Int) < (ROWS : Int)
        ∧ (0 : Int) ≤ (c : Int) ∧ (c : Int) < (COLS : Int) by omega)]
    simp
  rw [new_grid_val, convAt_gridOf, hg, gridStep, specRule]
  cases hf : f r c
  · by_cases h3 : liveNeighborsSpec f r c = 3 <;> simp [h3]
  · by_cases h2 : liveNeighborsSpec f r c = 2 <;>
      by_cases h3 : liveNeighborsSpec f r c = 3 <;> simp [h2, h3]

theorem rebuildNumpy_rowMajor (f : Nat → Nat → Bool) :
    rebuildNumpy (rowMajor f) (gridOf f) = some (rowMajor (gridStep f)) := by
  rw [rebuildNumpy,
    optSeq_map_some allKeysList _ (fun k => (k, (⟨gridStep f k.1 k.2⟩ : Cell)))
      (fun k hk => by
        obtain ⟨hr, hc⟩ := (mem_allKeysList k).mp hk
        obtain ⟨r, c⟩ := k
        rw [alGet_rowMajor, if_pos ⟨hr, hc⟩]
        simp [new_grid_val_gridOf f r c hr hc]),
    map_allKeysList (fun a b => (⟨gridStep f a b⟩ : Cell)), rowMajor]

theorem next_generation_numpy_rowMajor (f : Nat → Nat → Bool) :
    next_generation_numpy (rowMajor f) = some (rowMajor (gridStep f)) := by
  rw [next_generation_numpy, buildGrid_rowMajor, Option.some_bind]
  exact rebuildNumpy_rowMajor f

theorem resGet_rowMajor_step (F : Checkboxes → Option Checkboxes)
    (f : Nat → Nat → Bool) (r c : Nat) (hr : r < ROWS) (hc : c < COLS)
    (hF : F (rowMajor f) = some (rowMajor (gridStep f))) :
    resGet (F (rowMajor f)) (r, c)
      = some ⟨specRule (f r c) (liveNeighborsSpec f r c)⟩ := by
  rw [resGet, hF, Option.some_bind, alGet_rowMajor, if_pos ⟨hr, hc⟩]
  rfl

/-- C1: on every fully populated `ROWS × COLS` grid, the transition function
(both the pure-Python and the numpy one) computes each cell's next state from
the live-neighbor count over the 8 Moore offsets clipped at the boundaries
(off-grid neighbors dead, no wraparound): a live cell survives iff its count
is 2 or 3, a dead cell becomes live iff its count is exactly 3, and every
other cell is dead in the result. -/
theorem claim1_standard_rule (f : Nat → Nat → Bool) (r c : Nat)
    (hr : r < ROWS) (hc : c < COLS) :
    resGet (next_generation (rowMajor f)) (r, c)
        = some ⟨specRule (f r c) (liveNeighborsSpec f r c)⟩
    ∧ resGet (next_generation_numpy (rowMajor f)) (r, c)
        = some ⟨specRule (f r c) (liveNeighborsSpec f r c)⟩ :=
  ⟨resGet_rowMajor_step next_generation f r c hr hc (next_generation_rowMajor f),
   resGet_rowMajor_step next_generation_numpy f r c hr hc (next_generation_numpy_rowMajor f)⟩

/-- Witness for C1 at the diagonal grid and cell `(5, 7)`. -/
theorem claim1_standard_rule_witness :
    (5 : Nat) < ROWS ∧ (7 : Nat) < COLS
    ∧ (resGet (next_generation (rowMajor (fun r c => decide (r = c)))) (5, 7)
        = some ⟨specRule (decide ((5 : Nat) = 7))
            (liveNeighborsSpec (fun r c => decide (r = c)) 5 7)⟩
      ∧ resGet (next_generation_numpy (rowMajor (fun r c => decide (r = c)))) (5, 7)
        = some ⟨specRule (decide ((5 : Nat) = 7))
            (liveNeighborsSpec (fun r c => decide (r = c)) 5 7)⟩) :=
  ⟨by decide, by decide,
   claim1_standard_rule (fun r c => decide (r = c)) 5 7 (by decide) (by decide)⟩

/-- C3: on every fully populated `ROWS × COLS` grid, the pure-Python
transition and the numpy/convolution transition produce the same resulting
grid. -/
theorem claim3_pure_eq_numpy (f : Nat → Nat → Bool) :
    next_generation (rowMajor f) = next_generation_numpy (rowMajor f) := by
  rw [next_generation_rowMajor, next_generation_numpy_rowMajor]

/-- C4: the transition the app requests (the numpy one) fails on the
null/uninitialized grid (the missing key raises, embedded as `none`), and
neither transition function raises on a well-formed fully populated grid. -/
theorem claim4_error_handling :
    next_generation_numpy [] = none
    ∧ (∀ f : Nat → Nat → Bool,
        (next_generation (rowMajor f)).isSome
        ∧ (next_generation_numpy (rowMajor f)).isSome) := by
  refine ⟨rfl, fun f => ⟨?_, ?_⟩⟩
  · rw [next_generation_rowMajor]
    rfl
  · rw [next_generation_numpy_rowMajor]
    rfl

/-- C6: after Reset, the grid is fresh/uninitialized (empty dict), the
did-setup flag is cleared, the generation counter is 0 (and the loop stop
flag is set). -/
theorem claim6_reset (s : MyState) :
    (reset_button_clicked s).checkboxes = []
    ∧ (reset_button_clicked s).did_setup = false
    ∧ (reset_button_clicked s).generation = 0
    ∧ (reset_button_clicked s).stopped = true :=
  ⟨rfl, rfl, rfl, rfl⟩

/-- C2: in the lock-aware transition (modelled from the spec; the lock-aware
variant is not under src/), a locked cell keeps its pre-transition alive
value, and after the transition every cell's locked flag is false. -/
theorem claim2_lock_override (g : Nat → Nat → LCell) (r c : Nat)
    (h : (g r c).locked = true) :
    (next_generation_locked g r c).alive = (g r c).alive
    ∧ (∀ a b : Nat, (next_generation_locked g a b).locked = false) := by
  constructor
  · rw [next_generation_locked]
    simp [h]
  · intro a b
    rfl

/-- Witness for C2 at the all-live all-locked grid and cell `(1, 2)`. -/
theorem claim2_lock_override_witness :
    ((fun _ _ => (⟨true, true⟩ : LCell)) 1 2).locked = true
    ∧ (next_generation_locked (fun _ _ => (⟨true, true⟩ : LCell)) 1 2).alive
        = ((fun _ _ => (⟨true, true⟩ : LCell)) 1 2).alive
    ∧ (∀ a b : Nat,
        (next_generation_locked (fun _ _ => (⟨true, true⟩ : LCell)) a b).locked = false) :=
  ⟨rfl,
   (claim2_lock_override (fun _ _ => ⟨true, true⟩) 1 2 rfl).1,
   (claim2_lock_override (fun _ _ => ⟨true, true⟩) 1 2 rfl).2⟩

/-- C7: initialization is guarded to be idempotent: when the did-setup flag
is set, `initialize_grid_data` leaves the whole session state unchanged;
otherwise it fills every cell of the rows×cols grid with an RNG draw
(`random.random() < 0.5`, the `(row * cols + col)`-th draw) and sets the
flag, touching nothing else. -/
theorem claim7_init_guard (rows cols : Nat) (rng : Nat → Bool) (s : MyState) :
    (s.did_setup = true → initialize_grid_data rows cols rng s = s)
    ∧ (s.did_setup = false →
        initialize_grid_data rows cols rng s
          = { s with
              checkboxes := tabulate rows cols (fun row col => ⟨rng (row * cols + col)⟩),
              did_setup := true }) := by
  constructor
  · intro h
    rw [initialize_grid_data, if_pos h]
  · intro h
    rw [initialize_grid_data, if_neg (by rw [h]; exact Bool.false_ne_true)]

/-- Witness for C7 on both branches of the guard. -/
theorem claim7_init_guard_witness :
    ((⟨true, false, 4, []⟩ : MyState).did_setup = true
      → initialize_grid_data 2 3 (fun _ => true) ⟨true, false, 4, []⟩
          = ⟨true, false, 4, []⟩)
    ∧ ((⟨false, false, 4, []⟩ : MyState).did_setup = false
      → initialize_grid_data 2 3 (fun _ => true) ⟨false, false, 4, []⟩
          = { (⟨false, false, 4, []⟩ : MyState) with
              checkboxes := tabulate 2 3 (fun row col => ⟨(fun _ => true) (row * 3 + col)⟩),
              did_setup := true })
    ∧ (⟨true, false, 4, []⟩ : MyState).did_setup = true
    ∧ (⟨false, false, 4, []⟩ : MyState).did_setup = false :=
  ⟨(claim7_init_guard 2 3 (fun _ => true) ⟨true, false, 4, []⟩).1,
   (claim7_init_guard 2 3 (fun _ => true) ⟨false, false, 4, []⟩).2,
   rfl, rfl⟩

/-- C10: each wake of the auto-play loop checks the stop flag before
performing any work: once the flag is set the body breaks without computing
a transition, and when it is clear the body performs the whole tick (one
numpy transition and one generation increment) atomically before the next
check. -/
theorem claim10_stop_before_work (s : MyState) :
    (s.stopped = true → next_generation_loop_body s = LoopStep.stopTick)
    ∧ (s.stopped = false →
        next_generation_loop_body s
          = match next_generation_numpy s.checkboxes with
            | some cbs =>
              LoopStep.tick { s with checkboxes := cbs, generation := s.generation + 1 }
            | none => LoopStep.err) := by
  constructor
  · intro h
    rw [next_generation_loop_body, if_pos h]
  · intro h
    rw [next_generation_loop_body, if_neg (by rw [h]; exact Bool.false_ne_true)]

/-- Witness for C10 on a stopped and on a running state. -/
theorem claim10_stop_before_work_witness :
    ((⟨true, true, 9, []⟩ : MyState).stopped = true
      → next_generation_loop_body ⟨true, true, 9, []⟩ = LoopStep.stopTick)
    ∧ (⟨true, true, 9, []⟩ : MyState).stopped = true :=
  ⟨(claim10_stop_before_work ⟨true, true, 9, []⟩).1, rfl⟩

theorem keys_tabulate {α : Type} (g : Nat → Nat → α) :
    (tabulate ROWS COLS g).map Prod.fst = allKeysList := by
  simp only [tabulate, allKeysList, List.map_flatMap, List.map_map]
  rfl

theorem alGet_isSome_of_mem_keys {α : Type} (d : List (Key × α)) (k : Key)
    (h : k ∈ d.map Prod.fst) : (alGet d k).isSome := by
  induction d with
  | nil => simp at h
  | cons p rest ih =>
    rw [alGet_cons]
    by_cases hp : p.1 = k
    · simp [hp]
    · rw [if_neg hp]
      apply ih
      rw [List.map_cons] at h
      rcases List.mem_cons.mp h with h1 | h1
      · exact absurd h1.symm hp
      · exact h1

theorem buildNew_keys (cbs : Checkboxes) (l : List (Key × Bool))
    (h : ∀ kb ∈ l, (alGet cbs kb.1).isSome) :
    (buildNew cbs l).map (fun out => out.map Prod.fst) = some (l.map Prod.fst) := by
  induction l with
  | nil => rfl
  | cons kb rest ih =>
    obtain ⟨cell, hc⟩ := Option.isSome_iff_exists.mp (h kb (List.mem_cons_self kb rest))
    have h2 := ih (fun x hx => h x (List.mem_cons_of_mem kb hx))
    rw [buildNew, hc]
    cases hb : buildNew cbs rest with
    | none =>
      rw [hb] at h2
      exact absurd h2 (fun hh => Option.noConfusion hh)
    | some out =>
      rw [hb] at h2
      have h3 : out.map Prod.fst = rest.map Prod.fst := Option.some.inj h2
      show some (kb.1 :: out.map Prod.fst) = some (kb.1 :: rest.map Prod.fst)
      rw [h3]

theorem optSeq_map_getD {α β : Type} (l : List α) (h : α → Option β) (dflt : β)
    (hs : ∀ a ∈ l, (h a).isSome) :
    optSeq (l.map h) = some (l.map (fun a => (h a).getD dflt)) := by
  apply optSeq_map_some
  intro a ha
  obtain ⟨b, hb⟩ := Option.isSome_iff_exists.mp (hs a ha)
  rw [hb]
  rfl

theorem next_generation_keys (cbs : Checkboxes) (h : cbs.map Prod.fst = allKeysList) :
    (next_generation cbs).map (fun l => l.map Prod.fst) = some allKeysList := by
  rw [next_generation]
  have hkeys : ((snapshot cbs).map (fun kb => (kb.1, new_alive (snapshot cbs) kb))).map Prod.fst
      = cbs.map Prod.fst := by
    rw [snapshot, List.map_map, List.map_map]
    rfl
  rw [buildNew_keys cbs _ (fun kb hkb => alGet_isSome_of_mem_keys cbs kb.1 (by
    have hm := List.mem_map_of_mem Prod.fst hkb
    rw [hkeys] at hm
    exact hm))]
  rw [hkeys, h]

theorem buildGrid_some_of_keys (cbs : Checkboxes) (h : cbs.map Prod.fst = allKeysList) :
    buildGrid cbs = some ((List.range ROWS).map (fun row =>
      (List.range COLS).map (fun col =>
        ((alGet cbs (row, col)).map
          (fun cell => if cell.checked then 1 else 0)).getD 0))) := by
  rw [buildGrid]
  exact optSeq_map_some (List.range ROWS) _
    (fun row => (List.range COLS).map (fun col =>
      ((alGet cbs (row, col)).map (fun cell => if cell.checked then 1 else 0)).getD 0))
    (fun row hrow => optSeq_map_getD (List.range COLS) _ 0 (fun col hcol => by
      rw [List.mem_range] at hrow hcol
      obtain ⟨v, hv⟩ := Option.isSome_iff_exists.mp
        (alGet_isSome_of_mem_keys cbs (row, col) (by
          rw [h]
          exact (mem_allKeysList (row, col)).mpr ⟨hrow, hcol⟩))
      rw [hv]
      rfl))

theorem rebuildNumpy_keys (cbs : Checkboxes) (grid : List (List Nat))
    (h : cbs.map Prod.fst = allKeysList) :
    (rebuildNumpy cbs grid).map (fun l => l.map Prod.fst) = some allKeysList := by
  rw [rebuildNumpy, optSeq_map_getD allKeysList _ ((0, 0), ⟨false⟩)
    (fun k hk => by
      obtain ⟨v, hv⟩ := Option.isSome_iff_exists.mp
        (alGet_isSome_of_mem_keys cbs k (h ▸ hk))
      rw [hv]
      rfl)]
  rw [show ∀ (L : Checkboxes), (some L).map (fun l => l.map (@Prod.fst Key Cell))
      = some (L.map Prod.fst) from fun L => rfl]
  congr 1
  rw [List.map_map]
  have hpt : ∀ k ∈ allKeysList,
      (Prod.fst ∘ fun k => (((alGet cbs k).map (fun cell =>
        (k, { cell with checked := decide (new_grid_val grid k.1 k.2 ≠ 0) }))).getD
          ((0, 0), ⟨false⟩))) k = k := by
    intro k hk
    obtain ⟨v, hv⟩ := Option.isSome_iff_exists.mp
      (alGet_isSome_of_mem_keys cbs k (h ▸ hk))
    simp [Function.comp, hv]
  rw [List.map_congr_left hpt]
  exact List.map_id' allKeysList

theorem nodup_keys_aux (n m : Nat) :
    ((List.range n).flatMap (fun r => (List.range m).map (fun c => ((r, c) : Key)))).Nodup := by
  induction n with
  | zero => exact List.nodup_nil
  | succ n ih =>
    rw [List.range_succ, List.flatMap_append, List.flatMap_cons, List.flatMap_nil,
      List.append_nil]
    refine List.Nodup.append ih
      (List.Nodup.map (fun a b hab => congrArg Prod.snd hab) (List.nodup_range m)) ?_
    intro k hk1 hk2
    simp only [List.mem_flatMap, List.mem_map, List.mem_range] at hk1 hk2
    obtain ⟨r, hr, c, hc, hk⟩ := hk1
    obtain ⟨c2, hc2, hk2e⟩ := hk2
    rw [← hk] at hk2e
    have : n = r := congrArg Prod.fst hk2e
    omega

theorem allKeysList_nodup : allKeysList.Nodup := nodup_keys_aux ROWS COLS

/-- C8: the key-set invariant: initialization from a not-yet-set-up state
produces a dict whose keys are exactly the row-major list of all `(row,
col)` in `[0, ROWS) × [0, COLS)`, each transition (pure and numpy) maps a
grid with exactly that key set to a grid with exactly that key set, the key
list is duplicate-free, and membership in it is exactly in-rangeness. -/
theorem claim8_key_invariant :
    (∀ (rng : Nat → Bool) (s : MyState), s.did_setup = false →
        (initialize_grid_data ROWS COLS rng s).checkboxes.map Prod.fst = allKeysList)
    ∧ (∀ cbs : Checkboxes, cbs.map Prod.fst = allKeysList →
        (next_generation cbs).map (fun l => l.map Prod.fst) = some allKeysList)
    ∧ (∀ cbs : Checkboxes, cbs.map Prod.fst = allKeysList →
        (next_generation_numpy cbs).map (fun l => l.map Prod.fst) = some allKeysList)
    ∧ allKeysList.Nodup
    ∧ (∀ k : Key, k ∈ allKeysList ↔ (k.1 < ROWS ∧ k.2 < COLS)) := by
  refine ⟨fun rng s hs => ?_, next_generation_keys, fun cbs h => ?_,
    allKeysList_nodup, mem_allKeysList⟩
  · rw [initialize_grid_data, if_neg (by rw [hs]; exact Bool.false_ne_true)]
    exact keys_tabulate _
  · rw [next_generation_numpy, buildGrid_some_of_keys cbs h, Option.some_bind]
    exact rebuildNumpy_keys cbs _ h

/-- Witness for C8: initialization from a fresh state and both transitions
on a concrete fully populated grid. -/
theorem claim8_key_invariant_witness :
    ((⟨false, false, 0, []⟩ : MyState).did_setup = false
      ∧ (initialize_grid_data ROWS COLS (fun _ => false)
          ⟨false, false, 0, []⟩).checkboxes.map Prod.fst = allKeysList)
    ∧ ((rowMajor (fun _ _ => true)).map Prod.fst = allKeysList
      ∧ (next_generation (rowMajor (fun _ _ => true))).map
          (fun l => l.map Prod.fst) = some allKeysList
      ∧ (next_generation_numpy (rowMajor (fun _ _ => true))).map
          (fun l => l.map Prod.fst) = some allKeysList) :=
  ⟨⟨rfl, claim8_key_invariant.1 (fun _ => false) ⟨false, false, 0, []⟩ rfl⟩,
   ⟨keys_tabulate (fun _ _ => (⟨true⟩ : Cell)),
    claim8_key_invariant.2.1 (rowMajor (fun _ _ => true))
      (keys_tabulate (fun _ _ => (⟨true⟩ : Cell))),
    claim8_key_invariant.2.2.1 (rowMajor (fun _ _ => true))
      (keys_tabulate (fun _ _ => (⟨true⟩ : Cell)))⟩⟩

/-- C5 is refuted on the code: the "Next Generation" control runs one
transition pass but does not increment the generation counter. Here the
button handler succeeds on an initialized all-dead grid with counter 5 and
the counter is still 5 afterwards (the auto-loop tick and the manual cell
edit, by contrast, do increment it). -/
theorem claim5_next_button_no_increment :
    ((next_button_clicked ⟨true, false, 5, rowMajor (fun _ _ => false)⟩).map
        (fun s => s.generation)) = some 5
    ∧ next_generation_loop_body ⟨true, false, 5, rowMajor (fun _ _ => false)⟩
        = LoopStep.tick ⟨true, false, 6, rowMajor (gridStep (fun _ _ => false))⟩
    ∧ ((checkbox_changed ⟨true, false, 5, rowMajor (fun _ _ => false)⟩ (0, 0) true).map
        (fun s => s.generation)) = some 6 := by
  refine ⟨?_, ?_, ?_⟩
  · rw [next_button_clicked]
    dsimp only
    rw [next_generation_numpy_rowMajor]
    rfl
  · rw [next_generation_loop_body]
    dsimp only
    rw [if_neg (show ¬ (false = true) by decide), next_generation_numpy_rowMajor]
    rfl
  · rw [checkbox_changed]
    dsimp only
    rw [alGet_rowMajor, if_pos (show 0 < ROWS ∧ 0 < COLS by decide)]
    rfl

theorem neighTerm_blinker (r0 c0 : Nat) (h1 : r0 + 3 ≤ ROWS) (h2 : c0 + 3 ≤ COLS)
    (a b : Int) :
    neighTerm (blinkerV r0 c0) a b
      = if b = (c0 : Int) + 1 ∧ (r0 : Int) ≤ a ∧ a ≤ (r0 : Int) + 2 then 1 else 0 := by
  rw [neighTerm]
  by_cases hP : b = (c0 : Int) + 1 ∧ (r0 : Int) ≤ a ∧ a ≤ (r0 : Int) + 2
  · rw [if_pos hP, if_pos (by omega),
      show blinkerV r0 c0 a.toNat b.toNat = true by
        simp only [blinkerV, decide_eq_true_eq]; omega,
      if_pos rfl]
  · rw [if_neg hP]
    by_cases hin : 0 ≤ a ∧ a < (ROWS : Int) ∧ 0 ≤ b ∧ b < (COLS : Int)
    · rw [if_pos hin,
        show blinkerV r0 c0 a.toNat b.toNat = false by
          simp only [blinkerV, decide_eq_false_iff_not]; omega,
        if_neg Bool.false_ne_true]
    · rw [if_neg hin]

set_option maxHeartbeats 1000000 in
theorem blinker_step (r0 c0 r c : Nat) (h1 : r0 + 3 ≤ ROWS) (h2 : c0 + 3 ≤ COLS)
    (hr : r < ROWS) (hc : c < COLS) :
    gridStep (blinkerV r0 c0) r c = blinkerH r0 c0 r c := by
  rw [gridStep, liveNeighborsSpec, mooreOffsets_eq, NEIGHBOR_OFFSETS]
  simp only [List.map_cons, List.map_nil, List.sum_cons, List.sum_nil,
    neighTerm_blinker r0 c0 h1 h2]
  rw [specRule, blinkerH]
  by_cases hb : c = c0 + 1 ∧ r0 ≤ r ∧ r ≤ r0 + 2
  · rw [show blinkerV r0 c0 r c = true by
        simp only [blinkerV, decide_eq_true_eq]; exact hb,
      if_pos rfl]
    rw [decide_eq_decide]
    split_ifs <;>
      first
      | omega
      | (rw [false_iff]; omega)
      | (rw [true_iff]; omega)
  · rw [show blinkerV r0 c0 r c = false by
        simp only [blinkerV, decide_eq_false_iff_not]; exact hb,
      if_neg Bool.false_ne_true]
    rw [decide_eq_decide]
    split_ifs <;>
      first
      | omega
      | (rw [false_iff]; omega)
      | (rw [true_iff]; omega)

/-- C9: a grid whose live cells are exactly a vertical blinker (the middle
column of a 3×3 region that fits on the grid) transitions in one step to
exactly the corresponding horizontal middle row, every other cell dead,
with off-grid neighbors counted as dead. -/
theorem claim9_blinker (r0 c0 r c : Nat) (h1 : r0 + 3 ≤ ROWS) (h2 : c0 + 3 ≤ COLS)
    (hr : r < ROWS) (hc : c < COLS) :
    resGet (next_generation (rowMajor (blinkerV r0 c0))) (r, c)
      = some ⟨blinkerH r0 c0 r c⟩ := by
  rw [resGet, next_generation_rowMajor, Option.some_bind, alGet_rowMajor,
    if_pos ⟨hr, hc⟩, blinker_step r0 c0 r c h1 h2 hr hc]

/-- Witness for C9: the blinker at the top-left 3×3 region, read at the cell
`(1, 0)` (the left end of the resulting horizontal row). -/
theorem claim9_blinker_witness :
    0 + 3 ≤ ROWS ∧ 0 + 3 ≤ COLS ∧ 1 < ROWS ∧ 0 < COLS
    ∧ resGet (next_generation (rowMajor (blinkerV 0 0))) (1, 0)
        = some ⟨blinkerH 0 0 1 0⟩ :=
  ⟨by decide, by decide, by decide, by decide,
   claim9_blinker 0 0 1 0 (by decide) (by decide) (by decide) (by decide)⟩

end HDGOL
